import Mathlib

/-!
Verification of the FarmerFieldSchool plot-layout engine and boundary-surveyor
geometry against its specification.

The layout engine is embedded from `getNextPlotPosition` in the add-plot modal
(src/unnamed/part_003, lines 35-95) and the two drag handlers
(`handleMouseMove` in src/client/src/components/surveyor-tool.tsx, lines
627-648, and in src/client/src/components/draggable-plot.tsx, lines 53-67).
Grid coordinates are integers; the continuous pointer positions fed to the
drag handlers are embedded as rationals (JavaScript numbers used only for
max/min/round/compare, all exact here).

The surveyor geometry is embedded from `calculateDistance`,
`calculatePolygonArea`, `calculatePerimeter` and `completeBoundaryWalk` in
surveyor-tool.tsx (lines 88-210), over the reals.
-/

/-- A plot rectangle. The source schema also carries `id`, `name`, `color`
and `farmId`, none of which the placement or drag logic reads; only the
geometric fields are embedded. Source: shared schema / part_003 usage. -/
structure Plot where
  x : Int
  y : Int
  width : Int
  height : Int
deriving DecidableEq, Repr

/-- Source constant `SPACING = 1` (part_003 line 36). -/
def SPACING : Int := 1

/-- Source constant `BOUNDARY_MARGIN = 1` (part_003 line 37). -/
def BOUNDARY_MARGIN : Int := 1

/-- Source constant `GRID_MAX_WIDTH = 30` (part_003 line 38). -/
def GRID_MAX_WIDTH : Int := 30

/-- Source constant `GRID_MAX_HEIGHT = 30` (part_003 line 39). -/
def GRID_MAX_HEIGHT : Int := 30

/-- The values taken by a JavaScript loop `for (let v = start; v <= bound;
v += step)` with a positive step: `start, start + step, ...` up to `bound`.
For `step ≤ 0` the source loop either never runs (`start > bound`) or does
not terminate; this embedding is used only with the source's positive steps.
Closed form of the loops at part_003 lines 46-47 and 72-73. -/
def loopValues (start bound step : Int) : List Int :=
  if 0 < step ∧ start ≤ bound then
    (List.range ((bound - start).toNat / step.toNat + 1)).map
      (fun i : ℕ => start + step * (i : Int))
  else []

/-- The buffered overlap test of the spaced scan (part_003 lines 50-63):
the candidate at `(x, y)` of size `w × h` overlaps `plot` unless it is
separated from it by at least `SPACING` in some axis direction. -/
def bufferedOverlap (x y w h : Int) (plot : Plot) : Bool :=
  let plotRight := plot.x + plot.width
  let plotBottom := plot.y + plot.height
  let newPlotRight := x + w
  let newPlotBottom := y + h
  !(decide (x ≥ plotRight + SPACING) ||
    decide (newPlotRight ≤ plot.x - SPACING) ||
    decide (y ≥ plotBottom + SPACING) ||
    decide (newPlotBottom ≤ plot.y - SPACING))

/-- The exact overlap test of the dense fallback scan (part_003 lines 74-81):
standard rectangle intersection, separation conditions non-strict, so
edge-touching rectangles count as separated. -/
def denseOverlap (x y w h : Int) (plot : Plot) : Bool :=
  !(decide (x ≥ plot.x + plot.width) ||
    decide (x + w ≤ plot.x) ||
    decide (y ≥ plot.y + plot.height) ||
    decide (y + h ≤ plot.y))

/-- Tier 1 of `getNextPlotPosition` (part_003 lines 46-69): row-major scan
stepping by the new plot's own dimension plus `SPACING`, accepting the first
candidate that passes the buffered overlap test against every existing plot. -/
def spacedScan (existingPlots : List Plot) (plotWidth plotHeight : Int) :
    Option (Int × Int) :=
  (loopValues BOUNDARY_MARGIN (GRID_MAX_HEIGHT - plotHeight - BOUNDARY_MARGIN)
      (plotHeight + SPACING)).findSome? fun y =>
    (loopValues BOUNDARY_MARGIN (GRID_MAX_WIDTH - plotWidth - BOUNDARY_MARGIN)
        (plotWidth + SPACING)).findSome? fun x =>
      if existingPlots.any fun plot => bufferedOverlap x y plotWidth plotHeight plot
      then none else some (x, y)

/-- Tier 2 of `getNextPlotPosition` (part_003 lines 72-87): dense scan with
step 1 and the exact overlap test. -/
def denseScan (existingPlots : List Plot) (plotWidth plotHeight : Int) :
    Option (Int × Int) :=
  (loopValues BOUNDARY_MARGIN (GRID_MAX_HEIGHT - plotHeight - BOUNDARY_MARGIN)
      1).findSome? fun y =>
    (loopValues BOUNDARY_MARGIN (GRID_MAX_WIDTH - plotWidth - BOUNDARY_MARGIN)
        1).findSome? fun x =>
      if existingPlots.any fun plot => denseOverlap x y plotWidth plotHeight plot
      then none else some (x, y)

/-- `getNextPlotPosition` (part_003 lines 35-95): the spaced scan, then the
dense scan, then the fallback `(BOUNDARY_MARGIN, max BOUNDARY_MARGIN
(maxRow + SPACING))` where `maxRow` is the maximal bottom edge of the
existing plots (reduce with initial value 0, line 90). -/
def getNextPlotPosition (existingPlots : List Plot) (plotWidth plotHeight : Int) :
    Int × Int :=
  match spacedScan existingPlots plotWidth plotHeight with
  | some p => p
  | none =>
    match denseScan existingPlots plotWidth plotHeight with
    | some p => p
    | none =>
      let maxRow := existingPlots.foldl (fun mx plot => max mx (plot.y + plot.height)) 0
      (BOUNDARY_MARGIN, max BOUNDARY_MARGIN (maxRow + SPACING))

/-- JavaScript `Math.round` on the (positive-range) values this code feeds
it: round half up, `⌊q + 1/2⌋`. -/
def jsRound (q : ℚ) : Int := ⌊q + 1 / 2⌋

/-- The drag handler of surveyor-tool.tsx (lines 627-648): clamp the raw
(continuous) pointer position into `[BOUNDARY_MARGIN, gridBound - dimension
- BOUNDARY_MARGIN]` per axis, snap with `Math.round`, and call `onMove`
(here: return `some`) only when the snapped position differs from the plot's
current position by more than 0.1 cell on at least one axis. It consults no
other plot. -/
def surveyorDragMove (gridWidth gridHeight : Int) (plot : Plot) (rawX rawY : ℚ) :
    Option (Int × Int) :=
  let newX := max (BOUNDARY_MARGIN : ℚ)
    (min ((gridWidth : ℚ) - (plot.width : ℚ) - (BOUNDARY_MARGIN : ℚ)) rawX)
  let newY := max (BOUNDARY_MARGIN : ℚ)
    (min ((gridHeight : ℚ) - (plot.height : ℚ) - (BOUNDARY_MARGIN : ℚ)) rawY)
  let snappedX := jsRound newX
  let snappedY := jsRound newY
  if 1 / 10 < |(snappedX : ℚ) - (plot.x : ℚ)| ∨ 1 / 10 < |(snappedY : ℚ) - (plot.y : ℚ)|
  then some (snappedX, snappedY) else none

/-- The drag handler of draggable-plot.tsx (lines 53-67): `Math.floor` the
raw position, clamp into `[0, gridBound - dimension]`, and call `onMove`
(here: return `some`) only when the constrained position differs from the
plot's current position. -/
def draggableDragMove (gridWidth gridHeight : Int) (plot : Plot) (rawX rawY : ℚ) :
    Option (Int × Int) :=
  let newX := ⌊rawX⌋
  let newY := ⌊rawY⌋
  let constrainedX := max 0 (min (gridWidth - plot.width) newX)
  let constrainedY := max 0 (min (gridHeight - plot.height) newY)
  if constrainedX ≠ plot.x ∨ constrainedY ≠ plot.y
  then some (constrainedX, constrainedY) else none

/-- A GPS boundary point. The source interface also carries `id`, `label`,
`timestamp` and `accuracy`, which the geometry never reads; only the
coordinates are embedded (surveyor-tool.tsx). -/
structure BoundaryPoint where
  latitude : ℝ
  longitude : ℝ

/-- JavaScript `Math.atan2 y x`: the argument of the complex number
`x + y·i` (principal value in `(-π, π]`, 0 at the origin). -/
noncomputable def atan2 (y x : ℝ) : ℝ := Complex.arg ⟨x, y⟩

/-- `calculateDistance` (surveyor-tool.tsx lines 88-101): haversine
great-circle distance in meters between two points given in decimal
degrees. -/
noncomputable def calculateDistance (lat1 lon1 lat2 lon2 : ℝ) : ℝ :=
  let R : ℝ := 6371000
  let phi1 := lat1 * Real.pi / 180
  let phi2 := lat2 * Real.pi / 180
  let dPhi := (lat2 - lat1) * Real.pi / 180
  let dLambda := (lon2 - lon1) * Real.pi / 180
  let a := Real.sin (dPhi / 2) * Real.sin (dPhi / 2) +
    Real.cos phi1 * Real.cos phi2 * Real.sin (dLambda / 2) * Real.sin (dLambda / 2)
  let c := 2 * atan2 (Real.sqrt a) (Real.sqrt (1 - a))
  R * c

/-- `calculatePolygonArea` (surveyor-tool.tsx lines 104-127): 0 for fewer
than 3 points; otherwise project every point to local Cartesian meters
around the mean coordinate (the `reduce` sums embedded as `foldl`) and
accumulate the shoelace sum in a loop over the indices, wrapping the
successor index modulo the length. -/
noncomputable def calculatePolygonArea (points : List BoundaryPoint) : ℝ :=
  if points.length < 3 then 0
  else
    let avgLat := points.foldl (fun sum p => sum + p.latitude) (0 : ℝ) / (points.length : ℝ)
    let avgLon := points.foldl (fun sum p => sum + p.longitude) (0 : ℝ) / (points.length : ℝ)
    let metersPerDegreeLat : ℝ := 111320
    let metersPerDegreeLon : ℝ := 111320 * Real.cos (avgLat * Real.pi / 180)
    let cartesianPoints := points.map fun p =>
      ((p.longitude - avgLon) * metersPerDegreeLon,
       (p.latitude - avgLat) * metersPerDegreeLat)
    let n := cartesianPoints.length
    let area := (List.range n).foldl
      (fun area i =>
        area + (cartesianPoints.getD i (0, 0)).1 *
            (cartesianPoints.getD ((i + 1) % n) (0, 0)).2
          - (cartesianPoints.getD ((i + 1) % n) (0, 0)).1 *
            (cartesianPoints.getD i (0, 0)).2)
      0
    |area| / 2

/-- `calculatePerimeter` (surveyor-tool.tsx lines 130-141): 0 for fewer than
2 points; otherwise the sum over all indices of the haversine distance from
each point to its successor, wrapping modulo the length. -/
noncomputable def calculatePerimeter (points : List BoundaryPoint) : ℝ :=
  if points.length < 2 then 0
  else
    (List.range points.length).foldl
      (fun perimeter i =>
        let current := points.getD i ⟨0, 0⟩
        let next := points.getD ((i + 1) % points.length) ⟨0, 0⟩
        perimeter +
          calculateDistance current.latitude current.longitude next.latitude next.longitude)
      0

/-- The numeric fields of a completed `FieldMeasurement`
(surveyor-tool.tsx lines 200-210); `id`, `points`, `completedAt` and
`label` are bookkeeping the measurement math never reads. -/
structure FieldMeasurement where
  squareMeters : ℝ
  acres : ℝ
  perimeter : ℝ

/-- `completeBoundaryWalk` (surveyor-tool.tsx lines 191-213): rejects walks
of fewer than 3 points (alert, embedded as `none`), otherwise builds the
measurement, converting the area to acres by dividing by 4047. -/
noncomputable def completeBoundaryWalk (currentWalk : List BoundaryPoint) :
    Option FieldMeasurement :=
  if currentWalk.length < 3 then none
  else
    let area := calculatePolygonArea currentWalk
    let perimeter := calculatePerimeter currentWalk
    some { squareMeters := area, acres := area / 4047, perimeter := perimeter }

/-- The acres→m² conversion of the seasonal-data form's `onSubmit`
(src/unnamed/part_001 lines 81-88): when no explicit m² value accompanies
the acres value, multiply by 4046.86. -/
noncomputable def onSubmitLandAreaM2 (landAreaAcres : ℝ) (landAreaM2 : Option ℝ) : ℝ :=
  match landAreaM2 with
  | some m2 => m2
  | none => landAreaAcres * 4046.86

/-- Spec-side reference for the refinement claim about `calculateDistance`:
degrees to radians, `a = sin²(Δφ/2) + cos φ1 · cos φ2 · sin²(Δλ/2)`, result
`2 · R · atan2 (√a) (√(1−a))` with `R = 6,371,000` meters. Written from the
spec's wording, to be compared with the source embedding. -/
noncomputable def specHaversineDistance (lat1 lon1 lat2 lon2 : ℝ) : ℝ :=
  let R : ℝ := 6371000
  let phi1 := lat1 * Real.pi / 180
  let phi2 := lat2 * Real.pi / 180
  let dPhi := (lat2 - lat1) * Real.pi / 180
  let dLambda := (lon2 - lon1) * Real.pi / 180
  let a := Real.sin (dPhi / 2) ^ 2 + Real.cos phi1 * Real.cos phi2 * Real.sin (dLambda / 2) ^ 2
  2 * R * atan2 (Real.sqrt a) (Real.sqrt (1 - a))

/-- Spec-side reference for the refinement claim about `calculatePolygonArea`:
mean latitude and longitude, projection to Cartesian meters with
`x = (lon − meanLon) · 111320 · cos(meanLat in radians)` and
`y = (lat − meanLat) · 111320`, then `|Σ_i (x_i·y_{i+1} − x_{i+1}·y_i)| / 2`
with the successor index wrapping to 0. Written from the spec's wording. -/
noncomputable def specPolygonArea (points : List BoundaryPoint) : ℝ :=
  if points.length < 3 then 0
  else
    let meanLat := (points.map fun p => p.latitude).sum / (points.length : ℝ)
    let meanLon := (points.map fun p => p.longitude).sum / (points.length : ℝ)
    let proj := points.map fun p =>
      ((p.longitude - meanLon) * (111320 * Real.cos (meanLat * Real.pi / 180)),
       (p.latitude - meanLat) * 111320)
    let n := proj.length
    |((List.range n).map fun i =>
        (proj.getD i (0, 0)).1 * (proj.getD ((i + 1) % n) (0, 0)).2 -
        (proj.getD ((i + 1) % n) (0, 0)).1 * (proj.getD i (0, 0)).2).sum| / 2

/-- Spec-side reference for the refinement claim about the surveyor drag
handler: clamp each axis into `[boundaryMargin, gridBound − plotDimension −
boundaryMargin]` (margin 1), round half-up to the nearest integer cell, and
report a move exactly when the snapped position differs from the current one
by more than 0.1 cell on at least one axis. Written from the spec's wording. -/
def specConstrainDrag (gridWidth gridHeight : Int) (plot : Plot) (rawX rawY : ℚ) :
    Option (Int × Int) :=
  let clampedX := min ((gridWidth : ℚ) - (plot.width : ℚ) - 1) (max 1 rawX)
  let clampedY := min ((gridHeight : ℚ) - (plot.height : ℚ) - 1) (max 1 rawY)
  let snappedX := ⌊clampedX + 1 / 2⌋
  let snappedY := ⌊clampedY + 1 / 2⌋
  if 1 / 10 < |(snappedX : ℚ) - (plot.x : ℚ)| ∨ 1 / 10 < |(snappedY : ℚ) - (plot.y : ℚ)|
  then some (snappedX, snappedY) else none

/-- A rectangle expanded by the 1-cell `SPACING` buffer on all four sides. -/
def expandBySpacing (p : Plot) : Plot :=
  ⟨p.x - SPACING, p.y - SPACING, p.width + 2 * SPACING, p.height + 2 * SPACING⟩

/-- Strict axis-aligned rectangle intersection: the two rectangles share
interior in both axis projections (touching edges do not intersect). -/
def rectsIntersect (a b : Plot) : Bool :=
  decide (b.x < a.x + a.width) && decide (a.x < b.x + b.width) &&
  decide (b.y < a.y + a.height) && decide (a.y < b.y + b.height)

/-- Two placed plots keep the spacing buffer free: expanding either by the
`SPACING` buffer still leaves it disjoint from the other's raw rectangle. -/
def bufferedDisjoint (a b : Plot) : Prop :=
  rectsIntersect (expandBySpacing a) b = false ∧
  rectsIntersect (expandBySpacing b) a = false

/-- Lists of plots built by placing one plot at a time, each placement
produced by the spaced scan of `getNextPlotPosition` against the plots
already placed. -/
inductive SpacedChain : List Plot → Prop
  | nil : SpacedChain []
  | cons {ps : List Plot} {w h x y : Int} :
      SpacedChain ps →
      spacedScan ps w h = some (x, y) →
      SpacedChain (⟨x, y, w, h⟩ :: ps)

/-- A concrete 3-point walk used to exercise the completed-measurement
path. -/
noncomputable def sampleWalk : List BoundaryPoint :=
  [⟨0, 0⟩, ⟨0, 1 / 1000⟩, ⟨1 / 1000, 1 / 1000⟩]

/-- The measurement `completeBoundaryWalk` builds for `sampleWalk`. -/
noncomputable def sampleMeasurement : FieldMeasurement :=
  { squareMeters := calculatePolygonArea sampleWalk,
    acres := calculatePolygonArea sampleWalk / 4047,
    perimeter := calculatePerimeter sampleWalk }


lemma mem_loopValues {start bound step v : Int}
    (h : v ∈ loopValues start bound step) : start ≤ v ∧ v ≤ bound := by
  unfold loopValues at h
  split at h
  case isTrue hc =>
    obtain ⟨hstep, hsb⟩ := hc
    simp only [List.mem_map, List.mem_range] at h
    obtain ⟨i, hi, rfl⟩ := h
    have hi' : i ≤ (bound - start).toNat / step.toNat := by omega
    have h1 : (step.toNat : Int) = step := Int.toNat_of_nonneg hstep.le
    have h2 : ((bound - start).toNat : Int) = bound - start :=
      Int.toNat_of_nonneg (by omega)
    have h3 : i * step.toNat ≤ (bound - start).toNat :=
      le_trans (Nat.mul_le_mul_right _ hi') (Nat.div_mul_le_self _ _)
    have h4 : ((i : Int)) * ((step.toNat : ℕ) : Int) ≤ (((bound - start).toNat : ℕ) : Int) := by
      exact_mod_cast h3
    rw [h1, h2] at h4
    have h5 : step * (i : Int) = (i : Int) * step := mul_comm _ _
    have h6 : 0 ≤ step * (i : Int) :=
      mul_nonneg hstep.le (Int.natCast_nonneg i)
    constructor <;> linarith
  case isFalse => simp at h

lemma bufferedOverlap_eq_false_iff (x y w h : Int) (p : Plot) :
    bufferedOverlap x y w h p = false ↔
      (p.x + p.width + SPACING ≤ x ∨ x + w ≤ p.x - SPACING ∨
       p.y + p.height + SPACING ≤ y ∨ y + h ≤ p.y - SPACING) := by
  simp [bufferedOverlap, SPACING]
  omega

lemma denseOverlap_eq_false_iff (x y w h : Int) (p : Plot) :
    denseOverlap x y w h p = false ↔
      (p.x + p.width ≤ x ∨ x + w ≤ p.x ∨ p.y + p.height ≤ y ∨ y + h ≤ p.y) := by
  simp [denseOverlap]
  omega

lemma rectsIntersect_eq_false_iff (a b : Plot) :
    rectsIntersect a b = false ↔
      (a.x + a.width ≤ b.x ∨ b.x + b.width ≤ a.x ∨
       a.y + a.height ≤ b.y ∨ b.y + b.height ≤ a.y) := by
  simp [rectsIntersect]
  omega

lemma bufferedDisjoint_of_overlap_false {x y w h : Int} {p : Plot}
    (hb : bufferedOverlap x y w h p = false) : bufferedDisjoint ⟨x, y, w, h⟩ p := by
  rw [bufferedOverlap_eq_false_iff] at hb
  constructor <;>
    (rw [rectsIntersect_eq_false_iff]; simp only [expandBySpacing, SPACING] at *; omega)

lemma spacedScan_eq_some {ps : List Plot} {w h x y : Int}
    (hs : spacedScan ps w h = some (x, y)) :
    x ∈ loopValues BOUNDARY_MARGIN (GRID_MAX_WIDTH - w - BOUNDARY_MARGIN) (w + SPACING) ∧
    y ∈ loopValues BOUNDARY_MARGIN (GRID_MAX_HEIGHT - h - BOUNDARY_MARGIN) (h + SPACING) ∧
    ∀ p ∈ ps, bufferedOverlap x y w h p = false := by
  unfold spacedScan at hs
  obtain ⟨yv, hyv, hy2⟩ := List.exists_of_findSome?_eq_some hs
  obtain ⟨xv, hxv, hx2⟩ := List.exists_of_findSome?_eq_some hy2
  cases hany : (ps.any fun p => bufferedOverlap xv yv w h p) with
  | true => rw [hany] at hx2; simp at hx2
  | false =>
    rw [hany] at hx2
    simp only [Bool.false_eq_true, if_false, Option.some.injEq, Prod.mk.injEq] at hx2
    obtain ⟨hxe, hye⟩ := hx2
    subst hxe
    subst hye
    refine ⟨hxv, hyv, ?_⟩
    intro p hp
    cases hb : bufferedOverlap xv yv w h p with
    | false => rfl
    | true => exact absurd (List.any_eq_true.mpr ⟨p, hp, hb⟩) (by simp [hany])

lemma denseScan_eq_some {ps : List Plot} {w h x y : Int}
    (hs : denseScan ps w h = some (x, y)) :
    x ∈ loopValues BOUNDARY_MARGIN (GRID_MAX_WIDTH - w - BOUNDARY_MARGIN) 1 ∧
    y ∈ loopValues BOUNDARY_MARGIN (GRID_MAX_HEIGHT - h - BOUNDARY_MARGIN) 1 ∧
    ∀ p ∈ ps, denseOverlap x y w h p = false := by
  unfold denseScan at hs
  obtain ⟨yv, hyv, hy2⟩ := List.exists_of_findSome?_eq_some hs
  obtain ⟨xv, hxv, hx2⟩ := List.exists_of_findSome?_eq_some hy2
  cases hany : (ps.any fun p => denseOverlap xv yv w h p) with
  | true => rw [hany] at hx2; simp at hx2
  | false =>
    rw [hany] at hx2
    simp only [Bool.false_eq_true, if_false, Option.some.injEq, Prod.mk.injEq] at hx2
    obtain ⟨hxe, hye⟩ := hx2
    subst hxe
    subst hye
    refine ⟨hxv, hyv, ?_⟩
    intro p hp
    cases hb : denseOverlap xv yv w h p with
    | false => rfl
    | true => exact absurd (List.any_eq_true.mpr ⟨p, hp, hb⟩) (by simp [hany])

lemma spacedChain_pairwise {ps : List Plot} (hc : SpacedChain ps) :
    ps.Pairwise bufferedDisjoint := by
  induction hc with
  | nil => exact List.Pairwise.nil
  | cons hps hscan ih =>
    refine List.Pairwise.cons ?_ ih
    intro p hp
    exact bufferedDisjoint_of_overlap_false ((spacedScan_eq_some hscan).2.2 p hp)

lemma jsRound_bounds {lo hi : Int} {q : ℚ} (h1 : (lo : ℚ) ≤ q) (h2 : q ≤ (hi : ℚ)) :
    lo ≤ jsRound q ∧ jsRound q ≤ hi := by
  unfold jsRound
  constructor
  · exact Int.le_floor.mpr (by linarith)
  · have hlt : q + 1 / 2 < ((hi + 1 : Int) : ℚ) := by push_cast; linarith
    have := Int.floor_lt.mpr hlt
    omega

/-- C1: every sequence of plots placed one at a time through the spaced
scan of `getNextPlotPosition` keeps the spacing buffer free between every
pair (each plot, expanded by the `SPACING` buffer, misses every other
plot); concretely, on the empty 30×30 grid the first 5×3 plot lands at
`(1, 1)` and three sequential 5×3 placements land at `(1, 1)`, `(7, 1)`,
`(13, 1)`, mutually non-overlapping. -/
theorem spacedScan_placements_buffered_disjoint :
    (∀ ps : List Plot, SpacedChain ps → ps.Pairwise bufferedDisjoint) ∧
    getNextPlotPosition [] 5 3 = (1, 1) ∧
    getNextPlotPosition [⟨1, 1, 5, 3⟩] 5 3 = (7, 1) ∧
    getNextPlotPosition [⟨7, 1, 5, 3⟩, ⟨1, 1, 5, 3⟩] 5 3 = (13, 1) ∧
    ([⟨13, 1, 5, 3⟩, ⟨7, 1, 5, 3⟩, ⟨1, 1, 5, 3⟩] : List Plot).Pairwise
      (fun a b => rectsIntersect a b = false ∧ rectsIntersect b a = false) := by
  refine ⟨fun ps hc => spacedChain_pairwise hc, by decide, by decide, by decide, ?_⟩
  decide

theorem spacedScan_placements_buffered_disjoint_witness :
    ([⟨7, 1, 5, 3⟩, ⟨1, 1, 5, 3⟩] : List Plot).Pairwise bufferedDisjoint :=
  spacedScan_placements_buffered_disjoint.1 _
    (SpacedChain.cons (SpacedChain.cons SpacedChain.nil (by decide)) (by decide))

/-- C2 counterexample: with a 28×28 plot filling the whole usable grid,
both scans fail and the final fallback of `getNextPlotPosition` returns
`(1, 30)`, whose bottom edge `30 + 3 = 33` exceeds
`GRID_MAX_HEIGHT - BOUNDARY_MARGIN = 29`. -/
theorem fallback_exceeds_bottom_margin :
    getNextPlotPosition [⟨1, 1, 28, 28⟩] 5 3 = (1, 30) ∧
    ¬((getNextPlotPosition [⟨1, 1, 28, 28⟩] 5 3).2 + 3 ≤
        GRID_MAX_HEIGHT - BOUNDARY_MARGIN) := by
  decide

/-- C2 amended: positions returned by the two scan tiers satisfy all four
margin bounds; the final fallback guarantees `x = BOUNDARY_MARGIN` (hence
the x bounds whenever the width fits) and the lower y bound, but not the
upper y bound; positions reported by the surveyor drag handler satisfy all
four bounds whenever the plot fits between the margins, and positions
reported by the draggable-plot handler satisfy the margin-0 bounds whenever
the plot fits in the grid. -/
theorem placement_and_drag_containment :
    (∀ ps w h x y, spacedScan ps w h = some (x, y) →
      BOUNDARY_MARGIN ≤ x ∧ x + w ≤ GRID_MAX_WIDTH - BOUNDARY_MARGIN ∧
      BOUNDARY_MARGIN ≤ y ∧ y + h ≤ GRID_MAX_HEIGHT - BOUNDARY_MARGIN) ∧
    (∀ ps w h x y, denseScan ps w h = some (x, y) →
      BOUNDARY_MARGIN ≤ x ∧ x + w ≤ GRID_MAX_WIDTH - BOUNDARY_MARGIN ∧
      BOUNDARY_MARGIN ≤ y ∧ y + h ≤ GRID_MAX_HEIGHT - BOUNDARY_MARGIN) ∧
    (∀ ps w h, spacedScan ps w h = none → denseScan ps w h = none →
      (getNextPlotPosition ps w h).1 = BOUNDARY_MARGIN ∧
      (w ≤ GRID_MAX_WIDTH - 2 * BOUNDARY_MARGIN →
        (getNextPlotPosition ps w h).1 + w ≤ GRID_MAX_WIDTH - BOUNDARY_MARGIN) ∧
      BOUNDARY_MARGIN ≤ (getNextPlotPosition ps w h).2) ∧
    (∀ (gw gh : Int) (plot : Plot) (rx ry : ℚ) (sx sy : Int),
      plot.width ≤ gw - 2 * BOUNDARY_MARGIN → plot.height ≤ gh - 2 * BOUNDARY_MARGIN →
      surveyorDragMove gw gh plot rx ry = some (sx, sy) →
      BOUNDARY_MARGIN ≤ sx ∧ sx + plot.width ≤ gw - BOUNDARY_MARGIN ∧
      BOUNDARY_MARGIN ≤ sy ∧ sy + plot.height ≤ gh - BOUNDARY_MARGIN) ∧
    (∀ (gw gh : Int) (plot : Plot) (rx ry : ℚ) (cx cy : Int),
      plot.width ≤ gw → plot.height ≤ gh →
      draggableDragMove gw gh plot rx ry = some (cx, cy) →
      0 ≤ cx ∧ cx + plot.width ≤ gw ∧ 0 ≤ cy ∧ cy + plot.height ≤ gh) := by
  refine ⟨?_, ?_, ?_, ?_, ?_⟩
  · intro ps w h x y hs
    obtain ⟨hx, hy, -⟩ := spacedScan_eq_some hs
    have h1 := mem_loopValues hx
    have h2 := mem_loopValues hy
    simp only [BOUNDARY_MARGIN, GRID_MAX_WIDTH, GRID_MAX_HEIGHT] at *
    omega
  · intro ps w h x y hs
    obtain ⟨hx, hy, -⟩ := denseScan_eq_some hs
    have h1 := mem_loopValues hx
    have h2 := mem_loopValues hy
    simp only [BOUNDARY_MARGIN, GRID_MAX_WIDTH, GRID_MAX_HEIGHT] at *
    omega
  · intro ps w h h1 h2
    have he : getNextPlotPosition ps w h =
        (BOUNDARY_MARGIN,
         max BOUNDARY_MARGIN
           (ps.foldl (fun mx plot => max mx (plot.y + plot.height)) 0 + SPACING)) := by
      simp [getNextPlotPosition, h1, h2]
    rw [he]
    refine ⟨rfl, ?_, le_max_left _ _⟩
    intro hw
    simp only [BOUNDARY_MARGIN, GRID_MAX_WIDTH] at *
    omega
  · intro gw gh plot rx ry sx sy hw hh hd
    simp only [surveyorDragMove] at hd
    split at hd
    case isFalse => simp at hd
    case isTrue =>
      simp only [Option.some.injEq, Prod.mk.injEq] at hd
      obtain ⟨hsx, hsy⟩ := hd
      subst hsx
      subst hsy
      simp only [BOUNDARY_MARGIN, Int.cast_one] at *
      have hwq : (1 : ℚ) ≤ (gw : ℚ) - (plot.width : ℚ) - 1 := by
        have : ((plot.width + 2 : Int) : ℚ) ≤ ((gw : Int) : ℚ) := by
          exact_mod_cast (by omega : plot.width + 2 ≤ gw)
        push_cast at this
        linarith
      have hhq : (1 : ℚ) ≤ (gh : ℚ) - (plot.height : ℚ) - 1 := by
        have : ((plot.height + 2 : Int) : ℚ) ≤ ((gh : Int) : ℚ) := by
          exact_mod_cast (by omega : plot.height + 2 ≤ gh)
        push_cast at this
        linarith
      have hc1x : ((1 : Int) : ℚ) ≤ max (1 : ℚ) (min ((gw : ℚ) - (plot.width : ℚ) - 1) rx) := by
        push_cast
        exact le_max_left _ _
      have hc2x : max (1 : ℚ) (min ((gw : ℚ) - (plot.width : ℚ) - 1) rx) ≤
          ((gw - plot.width - 1 : Int) : ℚ) := by
        push_cast
        exact max_le hwq (min_le_left _ _)
      have hc1y : ((1 : Int) : ℚ) ≤ max (1 : ℚ) (min ((gh : ℚ) - (plot.height : ℚ) - 1) ry) := by
        push_cast
        exact le_max_left _ _
      have hc2y : max (1 : ℚ) (min ((gh : ℚ) - (plot.height : ℚ) - 1) ry) ≤
          ((gh - plot.height - 1 : Int) : ℚ) := by
        push_cast
        exact max_le hhq (min_le_left _ _)
      have bx := jsRound_bounds hc1x hc2x
      have by' := jsRound_bounds hc1y hc2y
      omega
  · intro gw gh plot rx ry cx cy hw hh hd
    simp only [draggableDragMove] at hd
    split at hd
    case isFalse => simp at hd
    case isTrue =>
      simp only [Option.some.injEq, Prod.mk.injEq] at hd
      obtain ⟨hcx, hcy⟩ := hd
      subst hcx
      subst hcy
      refine ⟨le_max_left _ _, ?_, le_max_left _ _, ?_⟩
      · have : max 0 (min (gw - plot.width) ⌊rx⌋) ≤ gw - plot.width :=
          max_le (by omega) (min_le_left _ _)
        omega
      · have : max 0 (min (gh - plot.height) ⌊ry⌋) ≤ gh - plot.height :=
          max_le (by omega) (min_le_left _ _)
        omega

theorem placement_and_drag_containment_witness :
    spacedScan [] 5 3 = some (1, 1) ∧
    (BOUNDARY_MARGIN ≤ (1 : Int) ∧ (1 : Int) + 5 ≤ GRID_MAX_WIDTH - BOUNDARY_MARGIN ∧
     BOUNDARY_MARGIN ≤ (1 : Int) ∧ (1 : Int) + 3 ≤ GRID_MAX_HEIGHT - BOUNDARY_MARGIN) :=
  ⟨by decide, placement_and_drag_containment.1 [] 5 3 1 1 (by decide)⟩

/-- C3 counterexample: the candidate `(6, 1)` of size 5×3 exactly touches
the right edge of the plot `⟨1, 1, 5, 3⟩` (its right edge is `1 + 5 = 6`),
yet the buffered scan test counts it as overlapping while the dense
fallback test does not — the opposite of the claim. -/
theorem edge_touching_tests_counterexample :
    (Plot.mk 1 1 5 3).x + (Plot.mk 1 1 5 3).width = 6 ∧
    bufferedOverlap 6 1 5 3 ⟨1, 1, 5, 3⟩ = true ∧
    denseOverlap 6 1 5 3 ⟨1, 1, 5, 3⟩ = false := by
  decide

/-- C3 amended: for a candidate that exactly touches an existing plot's
vertical edge (on either side) while their vertical extents overlap, the
buffered scan test counts the pair as overlapping (the buffer demands a
full `SPACING` gap) and the dense fallback test counts it as
non-overlapping. -/
theorem edge_touching_tests_amended :
    ∀ (x y w h : Int) (p : Plot), 0 < w → 0 < h → 0 < p.width → 0 < p.height →
    (x + w = p.x ∨ p.x + p.width = x) →
    y < p.y + p.height → p.y < y + h →
    bufferedOverlap x y w h p = true ∧ denseOverlap x y w h p = false := by
  intro x y w h p hw hh hpw hph htouch hy1 hy2
  constructor
  · cases hb : bufferedOverlap x y w h p with
    | true => rfl
    | false =>
      rw [bufferedOverlap_eq_false_iff] at hb
      simp only [SPACING] at hb
      omega
  · rw [denseOverlap_eq_false_iff]
    omega

theorem edge_touching_tests_amended_witness :
    bufferedOverlap 1 1 5 3 ⟨6, 1, 5, 3⟩ = true ∧
    denseOverlap 1 1 5 3 ⟨6, 1, 5, 3⟩ = false :=
  edge_touching_tests_amended 1 1 5 3 ⟨6, 1, 5, 3⟩ (by decide) (by decide) (by decide)
    (by decide) (Or.inl (by decide)) (by decide) (by decide)

/-- C7: `getNextPlotPosition` is a total function of its inputs (the
embedding of both bounded scans is a finite candidate list, so for positive
dimensions the source loops terminate), and when both scans produce no
candidate it returns exactly
`(BOUNDARY_MARGIN, max BOUNDARY_MARGIN (maxBottomEdge + SPACING))`. -/
theorem getNextPlotPosition_fallback :
    ∀ ps w h, 0 < w → 0 < h →
    spacedScan ps w h = none → denseScan ps w h = none →
    getNextPlotPosition ps w h =
      (BOUNDARY_MARGIN,
       max BOUNDARY_MARGIN
         (ps.foldl (fun mx plot => max mx (plot.y + plot.height)) 0 + SPACING)) := by
  intro ps w h _ _ h1 h2
  simp [getNextPlotPosition, h1, h2]

theorem getNextPlotPosition_fallback_witness :
    getNextPlotPosition [⟨1, 1, 28, 28⟩] 5 3 =
      (BOUNDARY_MARGIN,
       max BOUNDARY_MARGIN
         (([⟨1, 1, 28, 28⟩] : List Plot).foldl
            (fun mx plot => max mx (plot.y + plot.height)) 0 + SPACING)) :=
  getNextPlotPosition_fallback _ 5 3 (by decide) (by decide) (by decide) (by decide)

lemma foldl_add_map {α : Type} (f : α → ℝ) : ∀ (l : List α) (a : ℝ),
    l.foldl (fun s p => s + f p) a = a + (l.map f).sum := by
  intro l
  induction l with
  | nil => intro a; simp
  | cons x xs ih =>
    intro a
    simp only [List.foldl_cons, List.map_cons, List.sum_cons]
    rw [ih]
    ring

lemma foldl_add_sub_map {α : Type} (f g : α → ℝ) : ∀ (l : List α) (a : ℝ),
    l.foldl (fun s i => s + f i - g i) a = a + (l.map (fun i => f i - g i)).sum := by
  intro l
  induction l with
  | nil => intro a; simp
  | cons x xs ih =>
    intro a
    simp only [List.foldl_cons, List.map_cons, List.sum_cons]
    rw [ih]
    ring

lemma calculateDistance_symm (lat1 lon1 lat2 lon2 : ℝ) :
    calculateDistance lat2 lon2 lat1 lon1 = calculateDistance lat1 lon1 lat2 lon2 := by
  have e1 : (lat1 - lat2) * Real.pi / 180 = -((lat2 - lat1) * Real.pi / 180) := by ring
  have e2 : (lon1 - lon2) * Real.pi / 180 = -((lon2 - lon1) * Real.pi / 180) := by ring
  simp only [calculateDistance]
  rw [e1, e2]
  simp only [neg_div, Real.sin_neg, neg_mul_neg]
  ring_nf

/-- C5: `calculateDistance` coincides with the spec's haversine reference
formula (Earth radius 6,371,000 m, degrees to radians, `2·R·atan2(√a,
√(1−a))`). -/
theorem calculateDistance_refines_haversine :
    ∀ lat1 lon1 lat2 lon2 : ℝ,
    calculateDistance lat1 lon1 lat2 lon2 = specHaversineDistance lat1 lon1 lat2 lon2 := by
  intro lat1 lon1 lat2 lon2
  simp only [calculateDistance, specHaversineDistance]
  ring_nf

/-- C4: for every list of at least 3 points, `calculatePolygonArea` equals
the spec's reference computation (mean-centered equirectangular projection
with 111,320 m per degree, shoelace sum with wrap-around, `|Σ|/2`). -/
theorem calculatePolygonArea_refines :
    ∀ points : List BoundaryPoint, 3 ≤ points.length →
    calculatePolygonArea points = specPolygonArea points := by
  intro pts h3
  unfold calculatePolygonArea specPolygonArea
  rw [if_neg (by omega), if_neg (by omega)]
  simp only [foldl_add_map, foldl_add_sub_map, zero_add]

theorem calculatePolygonArea_refines_witness :
    calculatePolygonArea [⟨0, 0⟩, ⟨0, 1⟩, ⟨1, 1⟩] = specPolygonArea [⟨0, 0⟩, ⟨0, 1⟩, ⟨1, 1⟩] :=
  calculatePolygonArea_refines _ (by decide)

/-- C9: `calculatePolygonArea` returns 0 on lists of fewer than 3 points
and `calculatePerimeter` returns 0 on lists of fewer than 2 points. -/
theorem degenerate_geometry_returns_zero :
    (∀ pts : List BoundaryPoint, pts.length < 3 → calculatePolygonArea pts = 0) ∧
    (∀ pts : List BoundaryPoint, pts.length < 2 → calculatePerimeter pts = 0) := by
  constructor
  · intro pts h
    unfold calculatePolygonArea
    rw [if_pos h]
  · intro pts h
    unfold calculatePerimeter
    rw [if_pos h]

theorem degenerate_geometry_returns_zero_witness :
    calculatePolygonArea [] = 0 ∧ calculatePerimeter [] = 0 :=
  ⟨degenerate_geometry_returns_zero.1 [] (by decide),
   degenerate_geometry_returns_zero.2 [] (by decide)⟩

/-- C10: on a 2-point list the perimeter loop wraps around and traverses
the single segment in both directions, so `calculatePerimeter` returns
twice the haversine distance between the two points. -/
theorem perimeter_two_points_doubles :
    ∀ A B : BoundaryPoint,
    calculatePerimeter [A, B] =
      2 * calculateDistance A.latitude A.longitude B.latitude B.longitude := by
  intro A B
  have hsym := calculateDistance_symm A.latitude A.longitude B.latitude B.longitude
  unfold calculatePerimeter
  rw [if_neg (by simp)]
  norm_num [List.range_succ]
  rw [hsym]
  ring

/-- C6: the surveyor's completed measurement converts square meters to
acres by dividing by exactly 4047, the seasonal-data form converts acres to
square meters by multiplying by exactly 4046.86, and these two constants
differ. -/
theorem acre_conversion_constants :
    (∀ (walk : List BoundaryPoint) (m : FieldMeasurement),
      completeBoundaryWalk walk = some m → m.acres = m.squareMeters / 4047) ∧
    (∀ acres : ℝ, onSubmitLandAreaM2 acres none = acres * 4046.86) ∧
    (4047 : ℝ) ≠ 4046.86 := by
  refine ⟨?_, fun acres => rfl, by norm_num⟩
  intro walk m hm
  unfold completeBoundaryWalk at hm
  split at hm
  case isTrue => simp at hm
  case isFalse =>
    simp only [Option.some.injEq] at hm
    subst hm
    rfl

theorem acre_conversion_constants_witness :
    sampleMeasurement.acres = sampleMeasurement.squareMeters / 4047 :=
  acre_conversion_constants.1 sampleWalk sampleMeasurement rfl

/-- C8: whenever the plot fits between the margins, the surveyor drag
handler coincides with the spec's `constrainDrag`: clamp each axis into
`[boundaryMargin, gridBound − dimension − boundaryMargin]`, round half-up
to the nearest cell, and report a move exactly when the snapped position
differs from the current one by more than 0.1 cell on at least one axis;
no other plot enters the computation. -/
theorem surveyorDragMove_refines_constrainDrag :
    ∀ (gw gh : Int) (plot : Plot) (rx ry : ℚ),
    plot.width ≤ gw - 2 * BOUNDARY_MARGIN → plot.height ≤ gh - 2 * BOUNDARY_MARGIN →
    surveyorDragMove gw gh plot rx ry = specConstrainDrag gw gh plot rx ry := by
  intro gw gh plot rx ry hw hh
  have hwq : (1 : ℚ) ≤ (gw : ℚ) - (plot.width : ℚ) - 1 := by
    have : ((plot.width + 2 : Int) : ℚ) ≤ ((gw : Int) : ℚ) := by
      exact_mod_cast (by simp only [BOUNDARY_MARGIN] at hw; omega : plot.width + 2 ≤ gw)
    push_cast at this
    linarith
  have hhq : (1 : ℚ) ≤ (gh : ℚ) - (plot.height : ℚ) - 1 := by
    have : ((plot.height + 2 : Int) : ℚ) ≤ ((gh : Int) : ℚ) := by
      exact_mod_cast (by simp only [BOUNDARY_MARGIN] at hh; omega : plot.height + 2 ≤ gh)
    push_cast at this
    linarith
  unfold surveyorDragMove specConstrainDrag jsRound
  simp only [BOUNDARY_MARGIN, Int.cast_one]
  rw [max_min_distrib_left, max_eq_right hwq, max_min_distrib_left, max_eq_right hhq]

theorem surveyorDragMove_refines_constrainDrag_witness :
    surveyorDragMove 30 30 ⟨5, 5, 5, 3⟩ (37 / 5) (13 / 5) =
      specConstrainDrag 30 30 ⟨5, 5, 5, 3⟩ (37 / 5) (13 / 5) :=
  surveyorDragMove_refines_constrainDrag 30 30 ⟨5, 5, 5, 3⟩ (37 / 5) (13 / 5)
    (by decide) (by decide)
